import Mathlib

/-!
Shallow embedding of the SAKSHAM PRAVESH backend (src/main.py, src/schemas.py):
JWT issuance/verification, password hashing via passlib bcrypt, the auth
middleware `get_current_user`, and the route handlers, over an explicit
document-store state.  `database.py` (the store glue) is not part of the
source tree, so the store itself is modelled from the spec where noted.
Machine times are modelled as integer epoch seconds.
-/

deriving instance DecidableEq for Except

namespace SakshamPravesh

/-- An HTTP error outcome: status code plus detail message, as produced by
FastAPI HTTPException. -/
structure HError where
  status : Nat
  detail : String
deriving DecidableEq, Repr

def APP_NAME : String := "SAKSHAM PRAVESH"

/-- Default of os.getenv JWT_SECRET (main.py line 16). -/
def JWT_SECRET : String := "devsecret"

def JWT_ALGO : String := "HS256"

/-- main.py line 18: token lifetime in minutes, 60 * 24 = 24 hours. -/
def TOKEN_EXPIRE_MINUTES : Int := 60 * 24

/-! ## Password hasher (passlib CryptContext with schemes=["bcrypt"])

passlib is modelled as an ideal collision-free hash: the salt is made an
explicit argument (it is random in the library), and the digest is modelled
injectively by the password itself.  What matters for the claims is the
error behaviour: CryptContext.verify raises UnknownHashError (a ValueError)
when the hash string cannot be identified as one of the configured schemes,
which for bcrypt means a modular-crypt "$2...$" prefix. -/

inductive PasslibError where
  | unknownHash
deriving DecidableEq, Repr

/-- Character-list version of a starts-with test. -/
def startsWithChars : List Char → List Char → Bool
  | [], _ => true
  | _ :: _, [] => false
  | p :: ps, c :: cs => p == c && startsWithChars ps cs

/-- passlib bcrypt identify: a hash string is recognised iff it carries a
bcrypt modular-crypt marker at the front. -/
def bcryptIdentify (h : String) : Bool :=
  startsWithChars "$2b$".data h.data || startsWithChars "$2a$".data h.data ||
  startsWithChars "$2y$".data h.data || startsWithChars "$2x$".data h.data ||
  startsWithChars "$2$".data h.data

/-- main.py `hash_password` (ideal model: explicit salt, digest = password). -/
def hash_password (salt password : String) : String :=
  "$2b$12$" ++ salt ++ "$" ++ password

/-- Split a character list on the modular-crypt separator. -/
def splitOnDollar (cs : List Char) : List (List Char) :=
  match cs with
  | [] => [[]]
  | c :: rest =>
    let r := splitOnDollar rest
    if c = '$' then [] :: r
    else
      match r with
      | [] => [[c]]
      | g :: gs => (c :: g) :: gs

/-- main.py `verify_password`: pwd_context.verify.  Raises (Except.error)
UnknownHashError when the hash is not identified as bcrypt; otherwise
parses the modular-crypt fields, recomputes the digest from the embedded
salt and compares (in the ideal model the digest field is the password). -/
def verify_password (password hashed : String) : Except PasslibError Bool :=
  if bcryptIdentify hashed then
    .ok (match splitOnDollar hashed.data with
          | [_, _, _, _, digest] => digest == password.data
          | _ => false)
  else .error .unknownHash

/-! ## Token issuer / verifier (PyJWT, HS256 symmetric) -/

/-- The claim set of a token: payload.get("sub") and the "exp" claim in
epoch seconds. -/
structure JwtPayload where
  sub : Option String
  exp : Int
deriving DecidableEq, Repr

/-- A bearer token: either a payload signed with some secret, or a
structurally broken string. -/
inductive JwtToken where
  | signed (payload : JwtPayload) (secret : String)
  | malformed (raw : String)
deriving DecidableEq, Repr

inductive JwtError where
  | invalidSignature
  | decodeError
  | expired
deriving DecidableEq, Repr

/-- jwt.encode with HS256 and a secret. -/
def jwtEncode (payload : JwtPayload) (secret : String) : JwtToken :=
  .signed payload secret

/-- jwt.decode: signature is checked first, then the exp claim; PyJWT
treats a token as expired when exp <= now (no leeway). -/
def jwtDecode (t : JwtToken) (secret : String) (now : Int) :
    Except JwtError JwtPayload :=
  match t with
  | .malformed _ => .error .decodeError
  | .signed p s =>
    if s ≠ secret then .error .invalidSignature
    else if p.exp ≤ now then .error .expired
    else .ok p

/-- main.py `create_token`: copies the data (here the sub claim), sets
exp = now + (expires_delta or TOKEN_EXPIRE_MINUTES minutes), signs with
JWT_SECRET. -/
def create_token (now : Int) (sub : Option String) (expires_delta : Option Int) :
    JwtToken :=
  jwtEncode ⟨sub, now + expires_delta.getD (TOKEN_EXPIRE_MINUTES * 60)⟩ JWT_SECRET

/-! ## Data model (src/schemas.py) and the document store -/

/-- A raw stored user document.  get_current_user reads it with
user["email"], user.get("name"), user.get("role", "user"), and login reads
user.get("password_hash", ""); fields other than email may be absent. -/
structure UserDoc where
  name : Option String
  email : String
  phone : Option String
  password_hash : Option String
  role : Option String
  is_verified : Bool
deriving DecidableEq, Repr

/-- schemas.py OTPRequest document (expires_at as epoch seconds). -/
structure OtpDoc where
  channel : String
  target : String
  code : String
  purpose : String
  expires_at : Int
  verified : Bool
deriving DecidableEq, Repr

/-- schemas.py Package. -/
structure Package where
  slug : String
  title : String
  description : String
  features : List String
  price_inr : Int
  is_popular : Bool
deriving DecidableEq, Repr

/-- schemas.py BlogPost (published_at as epoch seconds). -/
structure BlogPost where
  title : String
  slug : String
  excerpt : Option String
  content : String
  author : String
  tags : List String
  published : Bool
  published_at : Option Int
deriving DecidableEq, Repr

/-- schemas.py Lead. -/
structure Lead where
  name : String
  email : String
  phone : Option String
  source : Option String
  message : Option String
  status : String
deriving DecidableEq, Repr

/-- schemas.py Appointment. -/
structure Appointment where
  user_email : Option String
  name : String
  phone : Option String
  package_id : Option String
  date : String
  time : String
  notes : Option String
  status : String
deriving DecidableEq, Repr

/-- Modelled from the spec: database.py is not in the source tree.  The
document store holds one list per collection (collection name = lowercase
class name); the spec requires only point lookup and insert. -/
structure Store where
  users : List UserDoc
  otprequests : List OtpDoc
  packages : List Package
  blogposts : List BlogPost
  leads : List Lead
  appointments : List Appointment
deriving DecidableEq, Repr

/-- Modelled from the spec: db.user.find_one on an email filter returns the
first stored user document whose email field equals the filter value, or
none. -/
def findOneUser (s : Store) (email : String) : Option UserDoc :=
  s.users.find? (fun u => u.email == email)

/-- db.otprequest.find_one on the target+code+purpose filter used by
otp_verify (main.py line 116). -/
def findOneOtp (s : Store) (target code purpose : String) : Option OtpDoc :=
  s.otprequests.find?
    (fun r => r.target == target && r.code == code && r.purpose == purpose)

/-- Modelled from the spec: create_document("user", u) inserts the document
into the user collection. -/
def createUserDoc (s : Store) (u : UserDoc) : Store :=
  { s with users := s.users ++ [u] }

/-! ## Auth middleware and handlers (src/main.py)

Handlers are modelled as pure functions from the optional store handle
(`db`, None when the database is not configured) and their inputs to an
outcome, paired with the resulting store handle when they may write. -/

/-- The identity attached downstream by get_current_user. -/
structure Identity where
  email : String
  name : Option String
  role : String
deriving DecidableEq, Repr

/-- A handler outcome: a response value, an HTTPException surfaced as
status+detail, or an unhandled exception (which FastAPI turns into a 500
internal server error). -/
inductive Outcome (α : Type) where
  | ok (val : α)
  | httpError (e : HError)
  | crash (msg : String)
deriving DecidableEq, Repr

/-- main.py `get_current_user` given an extracted bearer token.  Note the
except-clause structure: the HTTPExceptions raised inside the try block
(missing/empty sub, user not found — also when db is None) are themselves
caught by the bare `except Exception` and re-raised as 401 "Invalid token";
only jwt.ExpiredSignatureError yields 401 "Token expired". -/
def get_current_user (db : Option Store) (now : Int) (token : JwtToken) :
    Except HError Identity :=
  match jwtDecode token JWT_SECRET now with
  | .error .expired => .error ⟨401, "Token expired"⟩
  | .error _ => .error ⟨401, "Invalid token"⟩
  | .ok payload =>
    match payload.sub with
    | none => .error ⟨401, "Invalid token"⟩
    | some email =>
      if email = "" then .error ⟨401, "Invalid token"⟩
      else
        match db.bind (fun s => findOneUser s email) with
        | none => .error ⟨401, "Invalid token"⟩
        | some u => .ok ⟨u.email, u.name, u.role.getD "user"⟩

/-- The full protected-request auth step: OAuth2PasswordBearer raises 401
"Not authenticated" when the Authorization header carries no bearer token
(FastAPI auto_error), otherwise get_current_user runs on the token. -/
def authenticate (db : Option Store) (now : Int) (token : Option JwtToken) :
    Except HError Identity :=
  match token with
  | none => .error ⟨401, "Not authenticated"⟩
  | some t => get_current_user db now t

/-- The Token response model (main.py lines 47-49). -/
structure Token where
  access_token : JwtToken
  token_type : String
deriving DecidableEq, Repr

/-- main.py `register` (salt stands for the random bcrypt salt). -/
def register (db : Option Store) (now : Int) (salt : String)
    (name email password : String) : Outcome Token × Option Store :=
  match db with
  | none => (.httpError ⟨500, "Database not configured"⟩, db)
  | some s =>
    if (findOneUser s email).isSome then
      (.httpError ⟨400, "Email already registered"⟩, db)
    else
      let u : UserDoc :=
        ⟨some name, email, none, some (hash_password salt password),
          some "user", false⟩
      (.ok ⟨create_token now (some email) none, "bearer"⟩, some (createUserDoc s u))

/-- main.py `login`: user lookup short-circuits before verify_password; a
verify_password exception propagates uncaught (500 internal error). -/
def login (db : Option Store) (now : Int) (username password : String) :
    Outcome Token :=
  match db with
  | none => .httpError ⟨500, "Database not configured"⟩
  | some s =>
    match findOneUser s username with
    | none => .httpError ⟨400, "Incorrect email or password"⟩
    | some u =>
      match verify_password password (u.password_hash.getD "") with
      | .error _ => .crash "passlib UnknownHashError"
      | .ok true => .ok ⟨create_token now (some u.email) none, "bearer"⟩
      | .ok false => .httpError ⟨400, "Incorrect email or password"⟩

/-- main.py `otp_start`: stores a fixed-code record expiring in 10 minutes
and returns the dev code. -/
def otp_start (db : Option Store) (now : Int) (channel target purpose : String) :
    Outcome (Bool × String) × Option Store :=
  match db with
  | none => (.httpError ⟨500, "Database not configured"⟩, db)
  | some s =>
    let record : OtpDoc := ⟨channel, target, "123456", purpose, now + 10 * 60, false⟩
    (.ok (true, "123456"),
      some { s with otprequests := s.otprequests ++ [record] })

/-- main.py `otp_verify`: pure lookup; never writes, never reads the clock. -/
def otp_verify (db : Option Store) (target code purpose : String) :
    Outcome Bool × Option Store :=
  match db with
  | none => (.httpError ⟨500, "Database not configured"⟩, db)
  | some s =>
    match findOneOtp s target code purpose with
    | none => (.httpError ⟨400, "Invalid code"⟩, db)
    | some _ => (.ok true, db)

/-- main.py `list_packages`: returns the empty list when db is not
configured, otherwise all stored packages. -/
def list_packages (db : Option Store) : Outcome (List Package) :=
  match db with
  | none => .ok []
  | some s => .ok s.packages

/-- main.py `list_posts`: same shape as list_packages. -/
def list_posts (db : Option Store) : Outcome (List BlogPost) :=
  match db with
  | none => .ok []
  | some s => .ok s.blogposts

/-- main.py `create_package`: role gate first; the store write with an
unconfigured db is an unguarded call into the store glue, modelled from
the spec as a failure. -/
def create_package (db : Option Store) (user : Identity) (pkg : Package) :
    Outcome Bool × Option Store :=
  if user.role ≠ "admin" then (.httpError ⟨403, "Forbidden"⟩, db)
  else
    match db with
    | none => (.crash "store not configured", db)
    | some s => (.ok true, some { s with packages := s.packages ++ [pkg] })

/-- main.py `create_post`: role gate then insert, as create_package. -/
def create_post (db : Option Store) (user : Identity) (post : BlogPost) :
    Outcome Bool × Option Store :=
  if user.role ≠ "admin" then (.httpError ⟨403, "Forbidden"⟩, db)
  else
    match db with
    | none => (.crash "store not configured", db)
    | some s => (.ok true, some { s with blogposts := s.blogposts ++ [post] })

/-- main.py `create_lead`. -/
def create_lead (db : Option Store) (lead : Lead) : Outcome Bool × Option Store :=
  match db with
  | none => (.httpError ⟨500, "Database not configured"⟩, db)
  | some s => (.ok true, some { s with leads := s.leads ++ [lead] })

/-- main.py `create_appointment`. -/
def create_appointment (db : Option Store) (appt : Appointment) :
    Outcome Bool × Option Store :=
  match db with
  | none => (.httpError ⟨500, "Database not configured"⟩, db)
  | some s => (.ok true, some { s with appointments := s.appointments ++ [appt] })

/-- main.py `admin_leads`: role gate then read. -/
def admin_leads (db : Option Store) (user : Identity) : Outcome (List Lead) :=
  if user.role ≠ "admin" then .httpError ⟨403, "Forbidden"⟩
  else
    match db with
    | none => .crash "store not configured"
    | some s => .ok s.leads

/-- main.py `admin_appointments`: role gate then read. -/
def admin_appointments (db : Option Store) (user : Identity) :
    Outcome (List Appointment) :=
  if user.role ≠ "admin" then .httpError ⟨403, "Forbidden"⟩
  else
    match db with
    | none => .crash "store not configured"
    | some s => .ok s.appointments

/-- True iff the auth step ended in a 401 response. -/
def isUnauthorized (r : Except HError Identity) : Bool :=
  match r with
  | .error e => e.status == 401
  | .ok _ => false

/-! ## Claim theorems -/

/-- C1: for every protected admin route (POST /packages, POST /blog,
GET /admin/leads, GET /admin/appointments) and every authenticated identity
whose resolved role is not "admin", the request yields 403 Forbidden: the
role gate compares for exact equality with "admin" and has no hierarchy. -/
theorem admin_role_gate (db : Option Store) (user : Identity)
    (pkg : Package) (post : BlogPost) (h : user.role ≠ "admin") :
    (create_package db user pkg).1 = .httpError ⟨403, "Forbidden"⟩ ∧
    (create_post db user post).1 = .httpError ⟨403, "Forbidden"⟩ ∧
    admin_leads db user = .httpError ⟨403, "Forbidden"⟩ ∧
    admin_appointments db user = .httpError ⟨403, "Forbidden"⟩ := by
  unfold create_package create_post admin_leads admin_appointments
  simp [h]

/-- Witness for C1: a concrete identity with role "user" is rejected by all
four admin routes. -/
theorem admin_role_gate_witness :
    (create_package none ⟨"a@x.com", some "A", "user"⟩
        ⟨"s", "t", "d", [], 0, false⟩).1 = .httpError ⟨403, "Forbidden"⟩ ∧
    (create_post none ⟨"a@x.com", some "A", "user"⟩
        ⟨"t", "s", none, "c", "au", [], true, none⟩).1
      = .httpError ⟨403, "Forbidden"⟩ ∧
    admin_leads none ⟨"a@x.com", some "A", "user"⟩
      = .httpError ⟨403, "Forbidden"⟩ ∧
    admin_appointments none ⟨"a@x.com", some "A", "user"⟩
      = .httpError ⟨403, "Forbidden"⟩ :=
  admin_role_gate none ⟨"a@x.com", some "A", "user"⟩
    ⟨"s", "t", "d", [], 0, false⟩ ⟨"t", "s", none, "c", "au", [], true, none⟩
    (by decide)

/-- C3: round-trip — verifying a token issued with subject claim e, before
its expiry and against the same secret, recovers exactly the subject e. -/
theorem token_roundtrip (issuedAt verifyAt : Int) (e : String)
    (h : verifyAt < issuedAt + TOKEN_EXPIRE_MINUTES * 60) :
    (jwtDecode (create_token issuedAt (some e) none) JWT_SECRET verifyAt).map
        JwtPayload.sub = .ok (some e) := by
  unfold create_token jwtEncode jwtDecode
  simp only [Option.getD_none]
  rw [if_neg (by simp), if_neg (by omega)]
  rfl

/-- Witness for C3 at a concrete issue time, verify time and subject. -/
theorem token_roundtrip_witness :
    (jwtDecode (create_token 1000 (some "a@x.com") none) JWT_SECRET 5000).map
        JwtPayload.sub = .ok (some "a@x.com") :=
  token_roundtrip 1000 5000 "a@x.com" (by norm_num [TOKEN_EXPIRE_MINUTES])

/-- C4: a token issued at time T with the default 24-hour lifetime is
accepted at any time strictly before T+24h and rejected as expired at any
time strictly after T+24h (86400 seconds = TOKEN_EXPIRE_MINUTES minutes). -/
theorem token_lifetime (T t : Int) (e : String) :
    (t < T + 86400 →
      jwtDecode (create_token T (some e) none) JWT_SECRET t
        = .ok ⟨some e, T + 86400⟩) ∧
    (T + 86400 < t →
      jwtDecode (create_token T (some e) none) JWT_SECRET t
        = .error .expired) := by
  unfold create_token jwtEncode jwtDecode TOKEN_EXPIRE_MINUTES
  norm_num
  constructor
  · intro h h2
    exact absurd h2 (by omega)
  · intro h h2
    exact absurd h2 (by omega)

/-- Witness for C4 at the spec's example offsets: accepted at T+23h59m,
rejected Expired at T+24h01m (T = 0). -/
theorem token_lifetime_witness :
    jwtDecode (create_token 0 (some "a@x.com") none) JWT_SECRET 86340
      = .ok ⟨some "a@x.com", 0 + 86400⟩ ∧
    jwtDecode (create_token 0 (some "a@x.com") none) JWT_SECRET 86460
      = .error .expired :=
  ⟨(token_lifetime 0 86340 "a@x.com").1 (by norm_num),
   (token_lifetime 0 86460 "a@x.com").2 (by norm_num)⟩

/-- C2: every rejection condition at the auth boundary — absent bearer
token, broken or wrongly-signed token, expired token, token without a
subject claim, or a subject with no user record in the store — yields a
401 Unauthorized outcome, never an anonymous or successful identity. -/
theorem auth_rejections (db : Option Store) (now : Int) :
    isUnauthorized (authenticate db now none) = true ∧
    (∀ raw, isUnauthorized (authenticate db now (some (.malformed raw))) = true) ∧
    (∀ p sec, sec ≠ JWT_SECRET →
      isUnauthorized (authenticate db now (some (.signed p sec))) = true) ∧
    (∀ p, p.exp ≤ now →
      isUnauthorized (authenticate db now (some (.signed p JWT_SECRET))) = true) ∧
    (∀ exp,
      isUnauthorized (authenticate db now (some (.signed ⟨none, exp⟩ JWT_SECRET))) = true) ∧
    (∀ e exp, db.bind (fun s => findOneUser s e) = none →
      isUnauthorized (authenticate db now (some (.signed ⟨some e, exp⟩ JWT_SECRET))) = true) := by
  refine ⟨rfl, fun raw => rfl, fun p sec hsec => ?_, fun p hexp => ?_,
    fun exp => ?_, fun e exp hdb => ?_⟩
  · simp [authenticate, get_current_user, jwtDecode, isUnauthorized, hsec]
  · simp [authenticate, get_current_user, jwtDecode, isUnauthorized, hexp]
  · by_cases hle : exp ≤ now <;>
      simp [authenticate, get_current_user, jwtDecode, isUnauthorized, hle]
  · by_cases hle : exp ≤ now
    · simp [authenticate, get_current_user, jwtDecode, isUnauthorized, hle]
    · by_cases he : e = "" <;>
        simp [authenticate, get_current_user, jwtDecode, isUnauthorized,
          hle, he, hdb]

/-- Witness for C2: each rejection condition checked on concrete inputs
(empty store, time 50). -/
theorem auth_rejections_witness :
    isUnauthorized (authenticate (some ⟨[], [], [], [], [], []⟩) 50 none) = true ∧
    isUnauthorized (authenticate (some ⟨[], [], [], [], [], []⟩) 50
      (some (.malformed "xx"))) = true ∧
    isUnauthorized (authenticate (some ⟨[], [], [], [], [], []⟩) 50
      (some (.signed ⟨some "a@x.com", 100⟩ "othersecret"))) = true ∧
    isUnauthorized (authenticate (some ⟨[], [], [], [], [], []⟩) 50
      (some (.signed ⟨some "a@x.com", 40⟩ JWT_SECRET))) = true ∧
    isUnauthorized (authenticate (some ⟨[], [], [], [], [], []⟩) 50
      (some (.signed ⟨none, 100⟩ JWT_SECRET))) = true ∧
    isUnauthorized (authenticate (some ⟨[], [], [], [], [], []⟩) 50
      (some (.signed ⟨some "a@x.com", 100⟩ JWT_SECRET))) = true := by
  obtain ⟨h1, h2, h3, h4, h5, h6⟩ :=
    auth_rejections (some ⟨[], [], [], [], [], []⟩) 50
  exact ⟨h1, h2 "xx", h3 ⟨some "a@x.com", 100⟩ "othersecret" (by decide),
    h4 ⟨some "a@x.com", 40⟩ (by norm_num), h5 100,
    h6 "a@x.com" 100 (by decide)⟩

/-- C5: two-run indistinguishability at login — a failing attempt with an
unknown email and a failing attempt with a known email but a password the
hasher rejects produce the identical error outcome (status 400, message
"Incorrect email or password"). -/
theorem login_no_account_enumeration (s : Store) (now1 now2 : Int)
    (e1 pw1 e2 pw2 : String) (u : UserDoc)
    (h1 : findOneUser s e1 = none)
    (h2 : findOneUser s e2 = some u)
    (h3 : verify_password pw2 (u.password_hash.getD "") = .ok false) :
    login (some s) now1 e1 pw1 = login (some s) now2 e2 pw2 ∧
    login (some s) now1 e1 pw1
      = .httpError ⟨400, "Incorrect email or password"⟩ := by
  simp [login, h1, h2, h3]

/-- Witness for C5: a store with one user whose bcrypt hash does not match
the attempted password; unknown-email and wrong-password logins coincide. -/
theorem login_no_account_enumeration_witness :
    login (some ⟨[⟨some "A", "a@x.com", none, some (hash_password "s1" "pw"),
        some "user", false⟩], [], [], [], [], []⟩) 0 "b@x.com" "pw"
      = login (some ⟨[⟨some "A", "a@x.com", none, some (hash_password "s1" "pw"),
        some "user", false⟩], [], [], [], [], []⟩) 7 "a@x.com" "wrong" ∧
    login (some ⟨[⟨some "A", "a@x.com", none, some (hash_password "s1" "pw"),
        some "user", false⟩], [], [], [], [], []⟩) 0 "b@x.com" "pw"
      = .httpError ⟨400, "Incorrect email or password"⟩ :=
  login_no_account_enumeration
    ⟨[⟨some "A", "a@x.com", none, some (hash_password "s1" "pw"), some "user", false⟩],
      [], [], [], [], []⟩ 0 7 "b@x.com" "pw" "a@x.com" "wrong"
    ⟨some "A", "a@x.com", none, some (hash_password "s1" "pw"), some "user", false⟩
    (by decide) (by decide) (by decide)

/-- C6: registering twice with the same email — the first registration
succeeds and returns a token, and the second fails with the duplicate-email
Conflict error (400 "Email already registered"), because the first
registration put the email into the credential store. -/
theorem register_twice_conflict (s : Store) (now1 now2 : Int)
    (salt1 salt2 n1 e pw1 n2 pw2 : String)
    (h : findOneUser s e = none) :
    (register (some s) now1 salt1 n1 e pw1).1
      = .ok ⟨create_token now1 (some e) none, "bearer"⟩ ∧
    (register ((register (some s) now1 salt1 n1 e pw1).2) now2 salt2 n2 e pw2).1
      = .httpError ⟨400, "Email already registered"⟩ := by
  have h' : s.users.find? (fun u => u.email == e) = none := h
  have h2 : findOneUser (createUserDoc s
      ⟨some n1, e, none, some (hash_password salt1 pw1), some "user", false⟩) e
      = some ⟨some n1, e, none, some (hash_password salt1 pw1), some "user", false⟩ := by
    unfold findOneUser createUserDoc
    simp [List.find?_append, h']
  constructor
  · simp [register, h]
  · simp [register, h, h2]

/-- Witness for C6 starting from the empty store. -/
theorem register_twice_conflict_witness :
    (register (some ⟨[], [], [], [], [], []⟩) 0 "sa" "N1" "n@x.com" "p1").1
      = .ok ⟨create_token 0 (some "n@x.com") none, "bearer"⟩ ∧
    (register ((register (some ⟨[], [], [], [], [], []⟩) 0 "sa" "N1" "n@x.com" "p1").2)
        5 "sb" "N2" "n@x.com" "p2").1
      = .httpError ⟨400, "Email already registered"⟩ :=
  register_twice_conflict ⟨[], [], [], [], [], []⟩ 0 5 "sa" "sb" "N1" "n@x.com"
    "p1" "N2" "p2" (by decide)

/-- C7 counterexample: verify_password on the malformed hash "" does not
return false — it raises UnknownHashError — and login against a stored user
with no password hash (so user.get("password_hash", "") gives "") crashes
with that uncaught exception instead of answering InvalidCredentials. -/
theorem verify_password_totality_cex :
    verify_password "pw" "" ≠ .ok false ∧
    verify_password "pw" "" = .error .unknownHash ∧
    login (some ⟨[⟨some "A", "a@x.com", none, none, some "user", false⟩], [], [], [], [], []⟩)
        0 "a@x.com" "pw" = .crash "passlib UnknownHashError" := by
  refine ⟨by decide, by decide, by decide⟩

/-- C7 amended: passlib verify raises UnknownHashError on any hash string it
cannot identify as bcrypt (rather than returning false), so login with a
stored user lacking a password hash propagates an uncaught exception (a
500-class crash) rather than failing with InvalidCredentials. -/
theorem verify_password_unknown_hash (pw hs : String)
    (hid : bcryptIdentify hs = false) :
    verify_password pw hs = .error .unknownHash ∧
    (∀ (s : Store) (now : Int) (e p : String) (u : UserDoc),
      findOneUser s e = some u → u.password_hash = none →
      login (some s) now e p = .crash "passlib UnknownHashError") := by
  have hempty : bcryptIdentify "" = false := by decide
  constructor
  · simp [verify_password, hid]
  · intro s now e p u hu hph
    simp [login, hu, hph, verify_password, hempty]

/-- Witness for C7's amended statement: hash "" is unidentified, and a
concrete login against a hash-less user crashes. -/
theorem verify_password_unknown_hash_witness :
    verify_password "secret" "" = .error .unknownHash ∧
    login (some ⟨[⟨some "B", "b@x.com", none, none, some "user", false⟩], [], [], [], [], []⟩)
        3 "b@x.com" "pw2" = .crash "passlib UnknownHashError" :=
  ⟨(verify_password_unknown_hash "secret" "" (by decide)).1,
   (verify_password_unknown_hash "secret" "" (by decide)).2
     ⟨[⟨some "B", "b@x.com", none, none, some "user", false⟩], [], [], [], [], []⟩
     3 "b@x.com" "pw2" ⟨some "B", "b@x.com", none, none, some "user", false⟩
     (by decide) rfl⟩

/-- C8: otp_verify answers InvalidCode exactly when no stored record
matches target+code+purpose; any matching record makes it succeed, with no
condition on expires_at (an expired record still verifies), and the store
is left unchanged (nothing is marked verified). -/
theorem otp_verify_contract (s : Store) (target code purpose : String) :
    ((otp_verify (some s) target code purpose).1
        = .httpError ⟨400, "Invalid code"⟩
      ↔ findOneOtp s target code purpose = none) ∧
    (∀ r, r ∈ s.otprequests → r.target = target → r.code = code →
      r.purpose = purpose →
      (otp_verify (some s) target code purpose).1 = .ok true) ∧
    (otp_verify (some s) target code purpose).2 = some s := by
  cases hfind : findOneOtp s target code purpose with
  | none =>
    refine ⟨by simp [otp_verify, hfind], ?_, by simp [otp_verify, hfind]⟩
    intro r hr ht hc hp
    exfalso
    have hsome : (s.otprequests.find? fun r =>
        r.target == target && r.code == code && r.purpose == purpose).isSome := by
      rw [List.find?_isSome]
      exact ⟨r, hr, by simp [ht, hc, hp]⟩
    have hnone : (s.otprequests.find? fun r =>
        r.target == target && r.code == code && r.purpose == purpose) = none := hfind
    rw [hnone] at hsome
    simp at hsome
  | some r0 =>
    exact ⟨by simp [otp_verify, hfind], fun r _ _ _ _ => by simp [otp_verify, hfind],
      by simp [otp_verify, hfind]⟩

/-- Witness for C8: a store holding one OTP record whose expiry (-100) is
in the past still verifies, and the store handle is returned unchanged. -/
theorem otp_verify_contract_witness :
    (otp_verify (some ⟨[], [⟨"email", "t@x.com", "123456", "login", -100, false⟩],
        [], [], [], []⟩) "t@x.com" "123456" "login").1 = .ok true ∧
    (otp_verify (some ⟨[], [⟨"email", "t@x.com", "123456", "login", -100, false⟩],
        [], [], [], []⟩) "t@x.com" "123456" "login").2
      = some ⟨[], [⟨"email", "t@x.com", "123456", "login", -100, false⟩],
        [], [], [], []⟩ :=
  ⟨(otp_verify_contract ⟨[], [⟨"email", "t@x.com", "123456", "login", -100, false⟩],
      [], [], [], []⟩ "t@x.com" "123456" "login").2.1
      ⟨"email", "t@x.com", "123456", "login", -100, false⟩
      (by simp) rfl rfl rfl,
   (otp_verify_contract ⟨[], [⟨"email", "t@x.com", "123456", "login", -100, false⟩],
      [], [], [], []⟩ "t@x.com" "123456" "login").2.2⟩

/-- C9 counterexample: with the store not configured, GET /packages and
GET /blog return a normal empty-list success response, not a 500-class
ServiceUnavailable error. -/
theorem store_unconfigured_cex :
    list_packages none = .ok [] ∧
    list_packages none ≠ .httpError ⟨500, "Database not configured"⟩ ∧
    list_posts none = .ok [] := by
  refine ⟨rfl, by decide, rfl⟩

/-- C9 amended: with the store not configured, the guarded routes
(register, login, otp start, otp verify, create lead, create appointment)
each surface the fixed 500 "Database not configured" error, while the
public read routes GET /packages and GET /blog instead return an empty-list
success response. -/
theorem store_unconfigured_behavior (now : Int) (salt a b c d e f : String)
    (lead : Lead) (appt : Appointment) :
    (register none now salt a b c).1
      = .httpError ⟨500, "Database not configured"⟩ ∧
    login none now d e = .httpError ⟨500, "Database not configured"⟩ ∧
    (otp_start none now a b c).1
      = .httpError ⟨500, "Database not configured"⟩ ∧
    (otp_verify none a b f).1
      = .httpError ⟨500, "Database not configured"⟩ ∧
    (create_lead none lead).1
      = .httpError ⟨500, "Database not configured"⟩ ∧
    (create_appointment none appt).1
      = .httpError ⟨500, "Database not configured"⟩ ∧
    list_packages none = .ok [] ∧
    list_posts none = .ok [] :=
  ⟨rfl, rfl, rfl, rfl, rfl, rfl, rfl, rfl⟩

/-- C10: when the stored user document behind a valid token has no role
field, get_current_user resolves the identity with the default role "user",
and such an identity can never pass the admin role gate — the missing role
fails closed to non-admin. -/
theorem missing_role_fails_closed (s : Store) (now exp : Int) (e : String)
    (u : UserDoc) (hu : findOneUser s e = some u) (hrole : u.role = none)
    (he : e ≠ "") (hexp : now < exp) :
    get_current_user (some s) now (.signed ⟨some e, exp⟩ JWT_SECRET)
      = .ok ⟨u.email, u.name, "user"⟩ ∧
    (∀ (db2 : Option Store) (pkg : Package),
      (create_package db2 ⟨u.email, u.name, "user"⟩ pkg).1
        = .httpError ⟨403, "Forbidden"⟩) := by
  constructor
  · have hnle : ¬ exp ≤ now := by omega
    simp only [get_current_user, jwtDecode]
    rw [if_neg (by decide : ¬ (JWT_SECRET ≠ JWT_SECRET)), if_neg hnle]
    simp [he, hu, hrole]
  · intro db2 pkg
    simp [create_package]

/-- Witness for C10: a concrete user document without a role field resolves
to role "user" and is rejected by POST /packages. -/
theorem missing_role_fails_closed_witness :
    get_current_user
        (some ⟨[⟨some "C", "c@x.com", none, some "h", none, false⟩], [], [], [], [], []⟩)
        0 (.signed ⟨some "c@x.com", 100⟩ JWT_SECRET)
      = .ok ⟨"c@x.com", some "C", "user"⟩ ∧
    (create_package none ⟨"c@x.com", some "C", "user"⟩
        ⟨"s", "t", "d", [], 5, true⟩).1 = .httpError ⟨403, "Forbidden"⟩ :=
  ⟨(missing_role_fails_closed
      ⟨[⟨some "C", "c@x.com", none, some "h", none, false⟩], [], [], [], [], []⟩ 0 100
      "c@x.com" ⟨some "C", "c@x.com", none, some "h", none, false⟩
      (by decide) rfl (by decide) (by norm_num)).1,
   (missing_role_fails_closed
      ⟨[⟨some "C", "c@x.com", none, some "h", none, false⟩], [], [], [], [], []⟩ 0 100
      "c@x.com" ⟨some "C", "c@x.com", none, some "h", none, false⟩
      (by decide) rfl (by decide) (by norm_num)).2 none
      ⟨"s", "t", "d", [], 5, true⟩⟩

end SakshamPravesh
